import Mathlib

/-!
Verification of the GLB (global / pin-multiplexer) peripheral abstraction:
the GPIO register block layout and the 32-bit `GpioConfig` word codec.

The configuration word is modelled as a natural number (the raw `u32`
value); every accessor is translated directly from the source.  The Rust
bitwise complement `!MASK` on `u32` is the 32-bit complement, written here
as `0xFFFFFFFF ^^^ MASK`.  The `unreachable!()` branches of the fallible
enum decoders are modelled as `Option.none`.
-/

namespace Glb

/-- Pin drive strength (all four 2-bit codes are valid). -/
inductive Drive where
  | Drive0
  | Drive1
  | Drive2
  | Drive3
deriving DecidableEq, Fintype, Repr

/-- Discriminant of `Drive` (the Rust `val as u32`). -/
def Drive.toNat : Drive → Nat
  | .Drive0 => 0
  | .Drive1 => 1
  | .Drive2 => 2
  | .Drive3 => 3

/-- Pin alternate function (25 valid 5-bit codes). -/
inductive Function where
  | Sdh
  | Spi0
  | Flash
  | I2s
  | Pdm
  | I2c0
  | I2c1
  | Uart
  | Emac
  | Cam
  | Analog
  | Gpio
  | Pwm0
  | Pwm1
  | Spi1
  | I2c2
  | I2c3
  | MmUart
  | DbiB
  | DbiC
  | Dpi
  | JtagLp
  | JtagM0
  | JtagD0
  | ClockOut
deriving DecidableEq, Fintype, Repr

/-- Discriminant of `Function` (the Rust `val as u32`). -/
def Function.toNat : Function → Nat
  | .Sdh => 0
  | .Spi0 => 1
  | .Flash => 2
  | .I2s => 3
  | .Pdm => 4
  | .I2c0 => 5
  | .I2c1 => 6
  | .Uart => 7
  | .Emac => 8
  | .Cam => 9
  | .Analog => 10
  | .Gpio => 11
  | .Pwm0 => 16
  | .Pwm1 => 17
  | .Spi1 => 18
  | .I2c2 => 19
  | .I2c3 => 20
  | .MmUart => 21
  | .DbiB => 22
  | .DbiC => 23
  | .Dpi => 24
  | .JtagLp => 25
  | .JtagM0 => 26
  | .JtagD0 => 27
  | .ClockOut => 31

/-- Pin interrupt mode (9 valid 4-bit codes). -/
inductive InterruptMode where
  | SyncFallingEdge
  | SyncRisingEdge
  | SyncLowLevel
  | SyncHighLevel
  | SyncBothEdges
  | AsyncFallingEdge
  | AsyncRisingEdge
  | AsyncLowLevel
  | AsyncHighLevel
deriving DecidableEq, Fintype, Repr

/-- Discriminant of `InterruptMode` (the Rust `val as u32`). -/
def InterruptMode.toNat : InterruptMode → Nat
  | .SyncFallingEdge => 0
  | .SyncRisingEdge => 1
  | .SyncLowLevel => 2
  | .SyncHighLevel => 3
  | .SyncBothEdges => 4
  | .AsyncFallingEdge => 8
  | .AsyncRisingEdge => 9
  | .AsyncLowLevel => 10
  | .AsyncHighLevel => 11

/-- Pin mode as GPIO (all four 2-bit codes are valid). -/
inductive Mode where
  | Normal
  | SetClear
  | Programmable
  | BufferedSetClear
deriving DecidableEq, Fintype, Repr

/-- Discriminant of `Mode` (the Rust `val as u32`). -/
def Mode.toNat : Mode → Nat
  | .Normal => 0
  | .SetClear => 1
  | .Programmable => 2
  | .BufferedSetClear => 3

/-- Pin pull direction (3 valid 2-bit codes, code 3 reserved). -/
inductive Pull where
  | None
  | Up
  | Down
deriving DecidableEq, Fintype, Repr

/-- Discriminant of `Pull` (the Rust `val as u32`). -/
def Pull.toNat : Pull → Nat
  | .None => 0
  | .Up => 1
  | .Down => 2

/-- Configuration structure for the current GPIO pin: the raw 32-bit word. -/
structure GpioConfig where
  raw : Nat
deriving DecidableEq, Repr

/-- The 32-bit complement of a mask (the Rust `!MASK` on `u32`). -/
def not32 (m : Nat) : Nat := 0xFFFFFFFF ^^^ m

namespace GpioConfig

def INPUT_ENABLE : Nat := 1 <<< 0
def SCHMITT : Nat := 1 <<< 1
def DRIVE : Nat := 0x3 <<< 2
def PULL : Nat := 0x3 <<< 4
def OUTPUT_ENABLE : Nat := 1 <<< 6
def FUNCTION : Nat := 0x1f <<< 8
def INTERRUPT_MODE : Nat := 0xf <<< 16
def CLEAR_INTERRUPT : Nat := 1 <<< 20
def HAS_INTERRUPT : Nat := 1 <<< 21
def INTERRUPT_MASK : Nat := 1 <<< 22
def OUTPUT : Nat := 1 <<< 24
def SET : Nat := 1 <<< 25
def CLEAR : Nat := 1 <<< 26
def INPUT : Nat := 1 <<< 28
def MODE : Nat := 0x3 <<< 30

/-- Enable input function of current pin. -/
def enable_input (c : GpioConfig) : GpioConfig := ⟨c.raw ||| INPUT_ENABLE⟩

/-- Disable input function of current pin. -/
def disable_input (c : GpioConfig) : GpioConfig := ⟨c.raw &&& not32 INPUT_ENABLE⟩

/-- Check if input function of current pin is enabled. -/
def is_input_enabled (c : GpioConfig) : Bool := c.raw &&& INPUT_ENABLE != 0

/-- Enable Schmitt trigger function of current pin. -/
def enable_schmitt (c : GpioConfig) : GpioConfig := ⟨c.raw ||| SCHMITT⟩

/-- Disable Schmitt trigger function of current pin. -/
def disable_schmitt (c : GpioConfig) : GpioConfig := ⟨c.raw &&& not32 SCHMITT⟩

/-- Check if Schmitt trigger function of current pin is enabled. -/
def is_schmitt_enabled (c : GpioConfig) : Bool := c.raw &&& SCHMITT != 0

/-- Enable output function of current pin. -/
def enable_output (c : GpioConfig) : GpioConfig := ⟨c.raw ||| OUTPUT_ENABLE⟩

/-- Disable output function of current pin. -/
def disable_output (c : GpioConfig) : GpioConfig := ⟨c.raw &&& not32 OUTPUT_ENABLE⟩

/-- Check if output function of current pin is enabled. -/
def is_output_enabled (c : GpioConfig) : Bool := c.raw &&& OUTPUT_ENABLE != 0

/-- Mask interrupt of current pin. -/
def mask_interrupt (c : GpioConfig) : GpioConfig := ⟨c.raw ||| INTERRUPT_MASK⟩

/-- Unmask interrupt of current pin. -/
def unmask_interrupt (c : GpioConfig) : GpioConfig := ⟨c.raw &&& not32 INTERRUPT_MASK⟩

/-- Check if interrupt of current pin is masked. -/
def is_interrupt_masked (c : GpioConfig) : Bool := c.raw &&& INTERRUPT_MASK != 0

/-- Get output of current pin. -/
def output (c : GpioConfig) : Bool := c.raw &&& OUTPUT != 0

/-- Get input of current pin. -/
def input (c : GpioConfig) : Bool := c.raw &&& INPUT != 0

/-- Check if current pin has interrupt. -/
def has_interrupt (c : GpioConfig) : Bool := c.raw &&& HAS_INTERRUPT != 0

/-- Set pin output value to high (write-only strobe). -/
def set (c : GpioConfig) : GpioConfig := ⟨c.raw ||| SET⟩

/-- Clear pin output value to low (write-only strobe). -/
def clear (c : GpioConfig) : GpioConfig := ⟨c.raw ||| CLEAR⟩

/-- Clear interrupt flag of current pin (write-only strobe). -/
def clear_interrupt (c : GpioConfig) : GpioConfig := ⟨c.raw ||| CLEAR_INTERRUPT⟩

/-- Get drive strength of current pin; `none` models the unreachable branch. -/
def drive (c : GpioConfig) : Option Drive :=
  match (c.raw &&& DRIVE) >>> 2 with
  | 0 => some .Drive0
  | 1 => some .Drive1
  | 2 => some .Drive2
  | 3 => some .Drive3
  | _ => none

/-- Set drive strength of current pin. -/
def set_drive (c : GpioConfig) (val : Drive) : GpioConfig :=
  ⟨(c.raw &&& not32 DRIVE) ||| (val.toNat <<< 2)⟩

/-- Get function of current pin; `none` models the unreachable branch. -/
def function (c : GpioConfig) : Option Function :=
  match (c.raw &&& FUNCTION) >>> 8 with
  | 0 => some .Sdh
  | 1 => some .Spi0
  | 2 => some .Flash
  | 3 => some .I2s
  | 4 => some .Pdm
  | 5 => some .I2c0
  | 6 => some .I2c1
  | 7 => some .Uart
  | 8 => some .Emac
  | 9 => some .Cam
  | 10 => some .Analog
  | 11 => some .Gpio
  | 16 => some .Pwm0
  | 17 => some .Pwm1
  | 18 => some .Spi1
  | 19 => some .I2c2
  | 20 => some .I2c3
  | 21 => some .MmUart
  | 22 => some .DbiB
  | 23 => some .DbiC
  | 24 => some .Dpi
  | 25 => some .JtagLp
  | 26 => some .JtagM0
  | 27 => some .JtagD0
  | 31 => some .ClockOut
  | _ => none

/-- Set function of current pin. -/
def set_function (c : GpioConfig) (val : Function) : GpioConfig :=
  ⟨(c.raw &&& not32 FUNCTION) ||| (val.toNat <<< 8)⟩

/-- Get interrupt mode of current pin; `none` models the unreachable branch. -/
def interrupt_mode (c : GpioConfig) : Option InterruptMode :=
  match (c.raw &&& INTERRUPT_MODE) >>> 16 with
  | 0 => some .SyncFallingEdge
  | 1 => some .SyncRisingEdge
  | 2 => some .SyncLowLevel
  | 3 => some .SyncHighLevel
  | 4 => some .SyncBothEdges
  | 8 => some .AsyncFallingEdge
  | 9 => some .AsyncRisingEdge
  | 10 => some .AsyncLowLevel
  | 11 => some .AsyncHighLevel
  | _ => none

/-- Set interrupt mode of current pin. -/
def set_interrupt_mode (c : GpioConfig) (val : InterruptMode) : GpioConfig :=
  ⟨(c.raw &&& not32 INTERRUPT_MODE) ||| (val.toNat <<< 16)⟩

/-- Get mode of current pin; `none` models the unreachable branch. -/
def mode (c : GpioConfig) : Option Mode :=
  match (c.raw &&& MODE) >>> 30 with
  | 0 => some .Normal
  | 1 => some .SetClear
  | 2 => some .Programmable
  | 3 => some .BufferedSetClear
  | _ => none

/-- Set mode of current pin. -/
def set_mode (c : GpioConfig) (val : Mode) : GpioConfig :=
  ⟨(c.raw &&& not32 MODE) ||| (val.toNat <<< 30)⟩

/-- Get pull direction of current pin; `none` models the unreachable branch. -/
def pull (c : GpioConfig) : Option Pull :=
  match (c.raw &&& PULL) >>> 4 with
  | 0 => some .None
  | 1 => some .Up
  | 2 => some .Down
  | _ => none

/-- Set pull direction of current pin. -/
def set_pull (c : GpioConfig) (val : Pull) : GpioConfig :=
  ⟨(c.raw &&& not32 PULL) ||| (val.toNat <<< 4)⟩

/-- The derived `Default` instance: the all-zero word. -/
def default : GpioConfig := ⟨0⟩

end GpioConfig

/-- The fifteen logical fields packed into one configuration word. -/
inductive GField where
  | input_enable
  | schmitt
  | drive
  | pull
  | output_enable
  | function
  | interrupt_mode
  | clear_interrupt
  | has_interrupt
  | interrupt_mask
  | output
  | set
  | clear
  | input
  | mode
deriving DecidableEq, Fintype, Repr

/-- The positioned bit mask of each field (the associated constants). -/
def fieldMask : GField → Nat
  | .input_enable => GpioConfig.INPUT_ENABLE
  | .schmitt => GpioConfig.SCHMITT
  | .drive => GpioConfig.DRIVE
  | .pull => GpioConfig.PULL
  | .output_enable => GpioConfig.OUTPUT_ENABLE
  | .function => GpioConfig.FUNCTION
  | .interrupt_mode => GpioConfig.INTERRUPT_MODE
  | .clear_interrupt => GpioConfig.CLEAR_INTERRUPT
  | .has_interrupt => GpioConfig.HAS_INTERRUPT
  | .interrupt_mask => GpioConfig.INTERRUPT_MASK
  | .output => GpioConfig.OUTPUT
  | .set => GpioConfig.SET
  | .clear => GpioConfig.CLEAR
  | .input => GpioConfig.INPUT
  | .mode => GpioConfig.MODE

/-- The bit offset of each field inside the word. -/
def fieldOffset : GField → Nat
  | .input_enable => 0
  | .schmitt => 1
  | .drive => 2
  | .pull => 4
  | .output_enable => 6
  | .function => 8
  | .interrupt_mode => 16
  | .clear_interrupt => 20
  | .has_interrupt => 21
  | .interrupt_mask => 22
  | .output => 24
  | .set => 25
  | .clear => 26
  | .input => 28
  | .mode => 30

/-- Generic raw read of one field: mask then shift, exactly as every getter does. -/
def fieldGet (f : GField) (c : GpioConfig) : Nat :=
  (c.raw &&& fieldMask f) >>> fieldOffset f

/-- The mutating operations of the codec, each tagged with its argument. -/
inductive SetOp where
  | enable_input
  | disable_input
  | enable_schmitt
  | disable_schmitt
  | enable_output
  | disable_output
  | mask_interrupt
  | unmask_interrupt
  | set_drive (v : Drive)
  | set_pull (v : Pull)
  | set_function (v : Function)
  | set_interrupt_mode (v : InterruptMode)
  | set_mode (v : Mode)
  | set
  | clear
  | clear_interrupt

/-- The single field written by each operation. -/
def SetOp.targetField : SetOp → GField
  | .enable_input => .input_enable
  | .disable_input => .input_enable
  | .enable_schmitt => .schmitt
  | .disable_schmitt => .schmitt
  | .enable_output => .output_enable
  | .disable_output => .output_enable
  | .mask_interrupt => .interrupt_mask
  | .unmask_interrupt => .interrupt_mask
  | .set_drive _ => .drive
  | .set_pull _ => .pull
  | .set_function _ => .function
  | .set_interrupt_mode _ => .interrupt_mode
  | .set_mode _ => .mode
  | .set => .set
  | .clear => .clear
  | .clear_interrupt => .clear_interrupt

/-- Dispatch an operation to the codec function it names. -/
def SetOp.apply : SetOp → GpioConfig → GpioConfig
  | .enable_input, c => c.enable_input
  | .disable_input, c => c.disable_input
  | .enable_schmitt, c => c.enable_schmitt
  | .disable_schmitt, c => c.disable_schmitt
  | .enable_output, c => c.enable_output
  | .disable_output, c => c.disable_output
  | .mask_interrupt, c => c.mask_interrupt
  | .unmask_interrupt, c => c.unmask_interrupt
  | .set_drive v, c => c.set_drive v
  | .set_pull v, c => c.set_pull v
  | .set_function v, c => c.set_function v
  | .set_interrupt_mode v, c => c.set_interrupt_mode v
  | .set_mode v, c => c.set_mode v
  | .set, c => c.set
  | .clear, c => c.clear
  | .clear_interrupt, c => c.clear_interrupt

/-! ### The register block layout (`RegisterBlock`, `#[repr(C)]`) -/

/-- The fields of the GPIO register block, in declaration order. -/
inductive RegField where
  | reserved0
  | gpio_config
  | reserved1
  | gpio_input
  | reserved2
  | gpio_output
  | gpio_set
  | gpio_clear
deriving DecidableEq, BEq, Fintype, Repr

/-- Byte size of each field, from the source declarations
(`[u8; 0x8c4]`, `[GPIO_CONFIG; 46]`, `[u8; 0x148]`, `[RO<u32>; 2]`,
`[u8; 0x18]`, `[RW<u32>; 2]`, `[WO<u32>; 2]`, `[WO<u32>; 2]`). -/
def byteSize : RegField → Nat
  | .reserved0 => 0x8c4
  | .gpio_config => 46 * 4
  | .reserved1 => 0x148
  | .gpio_input => 2 * 4
  | .reserved2 => 0x18
  | .gpio_output => 2 * 4
  | .gpio_set => 2 * 4
  | .gpio_clear => 2 * 4

/-- Declaration order of the fields in the `#[repr(C)]` struct. -/
def fieldOrder : List RegField :=
  [.reserved0, .gpio_config, .reserved1, .gpio_input, .reserved2,
   .gpio_output, .gpio_set, .gpio_clear]

/-- Byte offset of a field from the peripheral base: the sum of the sizes
of all fields declared before it (all members are 4-byte aligned, so
`repr(C)` inserts no implicit padding). -/
def regOffset (f : RegField) : Nat :=
  ((fieldOrder.takeWhile (fun g => g != f)).map byteSize).sum

/-- Hardware access class of a register field. -/
inductive Access where
  | reservedGap
  | readOnly
  | readWrite
  | writeOnly
deriving DecidableEq, Repr

/-- Access class of each field, from the source types
(`RO<u32>`, `RW<u32>`, `WO<u32>`, reserved byte arrays; `GPIO_CONFIG`
exposes both `read` and `write`). -/
def regAccess : RegField → Access
  | .reserved0 => .reservedGap
  | .gpio_config => .readWrite
  | .reserved1 => .reservedGap
  | .gpio_input => .readOnly
  | .reserved2 => .reservedGap
  | .gpio_output => .readWrite
  | .gpio_set => .writeOnly
  | .gpio_clear => .writeOnly

/-! ### Bitwise helper lemmas -/

theorem and_lor_right (a b m : Nat) : (a ||| b) &&& m = (a &&& m) ||| (b &&& m) := by
  apply Nat.eq_of_testBit_eq
  intro i
  simp only [Nat.testBit_land, Nat.testBit_lor]
  cases a.testBit i <;> cases b.testBit i <;> cases m.testBit i <;> rfl

theorem and_assoc_nat (a b c : Nat) : a &&& b &&& c = a &&& (b &&& c) := by
  apply Nat.eq_of_testBit_eq
  intro i
  simp only [Nat.testBit_land]
  cases a.testBit i <;> cases b.testBit i <;> cases c.testBit i <;> rfl

theorem lor_lor_self (a m : Nat) : (a ||| m) ||| m = a ||| m := by
  apply Nat.eq_of_testBit_eq
  intro i
  simp only [Nat.testBit_lor]
  cases a.testBit i <;> cases m.testBit i <;> rfl

theorem land_land_self (a m : Nat) : (a &&& m) &&& m = a &&& m := by
  apply Nat.eq_of_testBit_eq
  intro i
  simp only [Nat.testBit_land]
  cases a.testBit i <;> cases m.testBit i <;> rfl

theorem or_and_eq (w x m : Nat) (h : x &&& m = 0) : (w ||| x) &&& m = w &&& m := by
  rw [and_lor_right, h, Nat.or_zero]

theorem and_and_eq (w c m : Nat) (h : c &&& m = m) : (w &&& c) &&& m = w &&& m := by
  rw [and_assoc_nat, h]

theorem andor_and_eq (w c x m : Nat) (h1 : c &&& m = m) (h2 : x &&& m = 0) :
    ((w &&& c) ||| x) &&& m = w &&& m := by
  rw [and_lor_right, h2, Nat.or_zero, and_and_eq w c m h1]

theorem shl_and_zero_of (x k m : Nat) (hx : x &&& k = x) (hkm : k &&& m = 0) :
    x &&& m = 0 := by
  rw [← hx, and_assoc_nat, hkm, Nat.and_zero]

theorem and_congr_of_subset (a b n m : Nat) (hab : a &&& n = b &&& n)
    (hm : m &&& n = m) : a &&& m = b &&& m := by
  apply Nat.eq_of_testBit_eq
  intro i
  have h1 := congrArg (fun t => t.testBit i) hab
  have h2 := congrArg (fun t => t.testBit i) hm
  simp only [Nat.testBit_land] at h1 h2 ⊢
  cases hmi : m.testBit i
  · simp
  · rw [hmi] at h2
    simp only [Bool.true_and] at h2
    rw [h2] at h1
    simp only [Bool.and_true] at h1
    rw [h1]

theorem drive_shl_restrict (v : Drive) :
    (v.toNat <<< 2) &&& GpioConfig.DRIVE = v.toNat <<< 2 := by
  cases v <;> decide

theorem pull_shl_restrict (v : Pull) :
    (v.toNat <<< 4) &&& GpioConfig.PULL = v.toNat <<< 4 := by
  cases v <;> decide

theorem function_shl_restrict (v : Function) :
    (v.toNat <<< 8) &&& GpioConfig.FUNCTION = v.toNat <<< 8 := by
  cases v <;> decide

theorem interrupt_mode_shl_restrict (v : InterruptMode) :
    (v.toNat <<< 16) &&& GpioConfig.INTERRUPT_MODE = v.toNat <<< 16 := by
  cases v <;> decide

theorem mode_shl_restrict (v : Mode) :
    (v.toNat <<< 30) &&& GpioConfig.MODE = v.toNat <<< 30 := by
  cases v <;> decide

/-- Every operation leaves the word unchanged outside its own field mask. -/
theorem apply_outside_mask (op : SetOp) (c : GpioConfig) :
    (op.apply c).raw &&& not32 (fieldMask op.targetField)
      = c.raw &&& not32 (fieldMask op.targetField) := by
  cases op with
  | enable_input => exact or_and_eq _ _ _ (by decide)
  | disable_input => exact and_and_eq _ _ _ (by decide)
  | enable_schmitt => exact or_and_eq _ _ _ (by decide)
  | disable_schmitt => exact and_and_eq _ _ _ (by decide)
  | enable_output => exact or_and_eq _ _ _ (by decide)
  | disable_output => exact and_and_eq _ _ _ (by decide)
  | mask_interrupt => exact or_and_eq _ _ _ (by decide)
  | unmask_interrupt => exact and_and_eq _ _ _ (by decide)
  | set_drive v =>
      show (GpioConfig.set_drive c v).raw &&& not32 GpioConfig.DRIVE
          = c.raw &&& not32 GpioConfig.DRIVE
      exact andor_and_eq _ _ _ _ (by decide)
        (shl_and_zero_of _ _ _ (drive_shl_restrict v) (by decide))
  | set_pull v =>
      show (GpioConfig.set_pull c v).raw &&& not32 GpioConfig.PULL
          = c.raw &&& not32 GpioConfig.PULL
      exact andor_and_eq _ _ _ _ (by decide)
        (shl_and_zero_of _ _ _ (pull_shl_restrict v) (by decide))
  | set_function v =>
      show (GpioConfig.set_function c v).raw &&& not32 GpioConfig.FUNCTION
          = c.raw &&& not32 GpioConfig.FUNCTION
      exact andor_and_eq _ _ _ _ (by decide)
        (shl_and_zero_of _ _ _ (function_shl_restrict v) (by decide))
  | set_interrupt_mode v =>
      show (GpioConfig.set_interrupt_mode c v).raw &&& not32 GpioConfig.INTERRUPT_MODE
          = c.raw &&& not32 GpioConfig.INTERRUPT_MODE
      exact andor_and_eq _ _ _ _ (by decide)
        (shl_and_zero_of _ _ _ (interrupt_mode_shl_restrict v) (by decide))
  | set_mode v =>
      show (GpioConfig.set_mode c v).raw &&& not32 GpioConfig.MODE
          = c.raw &&& not32 GpioConfig.MODE
      exact andor_and_eq _ _ _ _ (by decide)
        (shl_and_zero_of _ _ _ (mode_shl_restrict v) (by decide))
  | set => exact or_and_eq _ _ _ (by decide)
  | clear => exact or_and_eq _ _ _ (by decide)
  | clear_interrupt => exact or_and_eq _ _ _ (by decide)

/-- Distinct fields have disjoint masks: each mask lies inside the 32-bit
complement of any other field's mask. -/
theorem mask_subset_of_ne : ∀ f g : GField, f ≠ g →
    fieldMask f &&& not32 (fieldMask g) = fieldMask f := by
  decide

/-- An operation preserves the masked bits of every other field. -/
theorem apply_preserves (op : SetOp) (c : GpioConfig) (f : GField)
    (h : f ≠ op.targetField) :
    (op.apply c).raw &&& fieldMask f = c.raw &&& fieldMask f :=
  and_congr_of_subset _ _ _ _ (apply_outside_mask op c)
    (mask_subset_of_ne f op.targetField h)

/-- A bit inside the 32-bit word that a mask does not cover is covered by
the mask's 32-bit complement. -/
theorem not32_testBit (m i : Nat) (hi : i < 32) (h : m.testBit i = false) :
    (not32 m).testBit i = true := by
  unfold not32
  rw [Nat.testBit_xor, h]
  rw [show (0xFFFFFFFF : Nat) = 2 ^ 32 - 1 from rfl, Nat.testBit_two_pow_sub_one]
  simp [hi]

/-! ### Congruence of each getter in the bits of its own field -/

theorem is_input_enabled_congr (a b : GpioConfig)
    (h : a.raw &&& GpioConfig.INPUT_ENABLE = b.raw &&& GpioConfig.INPUT_ENABLE) :
    a.is_input_enabled = b.is_input_enabled := by
  unfold GpioConfig.is_input_enabled
  rw [h]

theorem is_schmitt_enabled_congr (a b : GpioConfig)
    (h : a.raw &&& GpioConfig.SCHMITT = b.raw &&& GpioConfig.SCHMITT) :
    a.is_schmitt_enabled = b.is_schmitt_enabled := by
  unfold GpioConfig.is_schmitt_enabled
  rw [h]

theorem is_output_enabled_congr (a b : GpioConfig)
    (h : a.raw &&& GpioConfig.OUTPUT_ENABLE = b.raw &&& GpioConfig.OUTPUT_ENABLE) :
    a.is_output_enabled = b.is_output_enabled := by
  unfold GpioConfig.is_output_enabled
  rw [h]

theorem is_interrupt_masked_congr (a b : GpioConfig)
    (h : a.raw &&& GpioConfig.INTERRUPT_MASK = b.raw &&& GpioConfig.INTERRUPT_MASK) :
    a.is_interrupt_masked = b.is_interrupt_masked := by
  unfold GpioConfig.is_interrupt_masked
  rw [h]

theorem has_interrupt_congr (a b : GpioConfig)
    (h : a.raw &&& GpioConfig.HAS_INTERRUPT = b.raw &&& GpioConfig.HAS_INTERRUPT) :
    a.has_interrupt = b.has_interrupt := by
  unfold GpioConfig.has_interrupt
  rw [h]

theorem output_congr (a b : GpioConfig)
    (h : a.raw &&& GpioConfig.OUTPUT = b.raw &&& GpioConfig.OUTPUT) :
    a.output = b.output := by
  unfold GpioConfig.output
  rw [h]

theorem input_congr (a b : GpioConfig)
    (h : a.raw &&& GpioConfig.INPUT = b.raw &&& GpioConfig.INPUT) :
    a.input = b.input := by
  unfold GpioConfig.input
  rw [h]

theorem drive_congr (a b : GpioConfig)
    (h : a.raw &&& GpioConfig.DRIVE = b.raw &&& GpioConfig.DRIVE) :
    a.drive = b.drive := by
  unfold GpioConfig.drive
  rw [h]

theorem pull_congr (a b : GpioConfig)
    (h : a.raw &&& GpioConfig.PULL = b.raw &&& GpioConfig.PULL) :
    a.pull = b.pull := by
  unfold GpioConfig.pull
  rw [h]

theorem function_congr (a b : GpioConfig)
    (h : a.raw &&& GpioConfig.FUNCTION = b.raw &&& GpioConfig.FUNCTION) :
    a.function = b.function := by
  unfold GpioConfig.function
  rw [h]

theorem interrupt_mode_congr (a b : GpioConfig)
    (h : a.raw &&& GpioConfig.INTERRUPT_MODE = b.raw &&& GpioConfig.INTERRUPT_MODE) :
    a.interrupt_mode = b.interrupt_mode := by
  unfold GpioConfig.interrupt_mode
  rw [h]

theorem mode_congr (a b : GpioConfig)
    (h : a.raw &&& GpioConfig.MODE = b.raw &&& GpioConfig.MODE) :
    a.mode = b.mode := by
  unfold GpioConfig.mode
  rw [h]

/-- A flag getter `raw & (1 <<< k) != 0` is the test of bit `k`. -/
theorem and_shl_one_ne_zero (w k : Nat) :
    (w &&& (1 <<< k) != 0) = w.testBit k := by
  rw [Nat.shiftLeft_eq, one_mul, Nat.and_two_pow]
  cases h : w.testBit k
  · simp
  · simp [(Nat.two_pow_pos k).ne']

/-- Writing a field twice: the first written value is wiped by the second
write's mask. -/
theorem overwrite_eq (w x y k : Nat) (hk : k &&& k = k) (hx : x &&& k = 0) :
    (((w &&& k) ||| x) &&& k) ||| y = (w &&& k) ||| y := by
  rw [and_lor_right, hx, Nat.or_zero, and_assoc_nat, hk]

/-! ### The claims -/

/-- Claim C1: decoding a reserved multi-bit code fails fast and never
silently returns a value.  For every raw word whose Pull field (bits 4:2)
holds pattern 3, `pull` yields `none`; for every word whose InterruptMode
field (bits 16:4) holds a pattern in {5,6,7,12,13,14,15}, `interrupt_mode`
yields `none`; for every word whose Function field (bits 8:5) holds a
pattern in {12,13,14,15,28,29,30}, `function` yields `none`. -/
theorem c1_reserved_code_rejection :
    (∀ c : GpioConfig, (c.raw &&& GpioConfig.PULL) >>> 4 = 3 → c.pull = none)
    ∧ (∀ c : GpioConfig,
        (c.raw &&& GpioConfig.INTERRUPT_MODE) >>> 16 ∈ ([5, 6, 7, 12, 13, 14, 15] : List Nat) →
        c.interrupt_mode = none)
    ∧ (∀ c : GpioConfig,
        (c.raw &&& GpioConfig.FUNCTION) >>> 8 ∈ ([12, 13, 14, 15, 28, 29, 30] : List Nat) →
        c.function = none) := by
  refine ⟨?_, ?_, ?_⟩
  · intro c h
    unfold GpioConfig.pull
    rw [h]
  · intro c h
    unfold GpioConfig.interrupt_mode
    simp only [List.mem_cons, List.not_mem_nil, or_false] at h
    rcases h with h | h | h | h | h | h | h <;> rw [h]
  · intro c h
    unfold GpioConfig.function
    simp only [List.mem_cons, List.not_mem_nil, or_false] at h
    rcases h with h | h | h | h | h | h | h <;> rw [h]

/-- Witness for C1 at concrete reserved patterns: Pull pattern 3 (raw
`0x30`), InterruptMode pattern 5 (raw `0x50000`), Function pattern 12
(raw `0xC00`). -/
theorem c1_reserved_code_rejection_witness :
    GpioConfig.pull ⟨0x30⟩ = none
    ∧ GpioConfig.interrupt_mode ⟨0x50000⟩ = none
    ∧ GpioConfig.function ⟨0xC00⟩ = none :=
  ⟨c1_reserved_code_rejection.1 ⟨0x30⟩ (by decide),
   c1_reserved_code_rejection.2.1 ⟨0x50000⟩ (by decide),
   c1_reserved_code_rejection.2.2 ⟨0xC00⟩ (by decide)⟩

/-- Claim C3: round trip — for every valid enumerated value `v` of Drive,
Pull, Mode, InterruptMode and Function, setting that field to `v` on the
default Config and reading the field back returns exactly `v`. -/
theorem c3_round_trip :
    (∀ v : Drive, (GpioConfig.default.set_drive v).drive = some v)
    ∧ (∀ v : Pull, (GpioConfig.default.set_pull v).pull = some v)
    ∧ (∀ v : Mode, (GpioConfig.default.set_mode v).mode = some v)
    ∧ (∀ v : InterruptMode,
        (GpioConfig.default.set_interrupt_mode v).interrupt_mode = some v)
    ∧ (∀ v : Function, (GpioConfig.default.set_function v).function = some v) := by
  refine ⟨?_, ?_, ?_, ?_, ?_⟩ <;> intro v <;> cases v <;> decide

/-- Claim C5: the Config with raw value 0 decodes as input disabled,
Schmitt disabled, Drive0, Pull::None, output disabled, Function::Sdh,
InterruptMode::SyncFallingEdge, Mode::Normal, interrupt not masked, and
all strobe and status bits (clear-interrupt 20, has-pending-interrupt,
set 25, clear 26, output level, input level) false/inactive. -/
theorem c5_default_decode :
    GpioConfig.default.is_input_enabled = false
    ∧ GpioConfig.default.is_schmitt_enabled = false
    ∧ GpioConfig.default.drive = some .Drive0
    ∧ GpioConfig.default.pull = some .None
    ∧ GpioConfig.default.is_output_enabled = false
    ∧ GpioConfig.default.function = some .Sdh
    ∧ GpioConfig.default.interrupt_mode = some .SyncFallingEdge
    ∧ GpioConfig.default.mode = some .Normal
    ∧ GpioConfig.default.is_interrupt_masked = false
    ∧ GpioConfig.default.has_interrupt = false
    ∧ GpioConfig.default.output = false
    ∧ GpioConfig.default.input = false
    ∧ GpioConfig.default.raw.testBit 20 = false
    ∧ GpioConfig.default.raw.testBit 25 = false
    ∧ GpioConfig.default.raw.testBit 26 = false := by
  decide

/-- Claim C6 counterexample: the set of 5-bit patterns that `function`
decodes to a value does not have 24 elements — the `Function`
enumeration has 25 variants (codes 0..11, 16..27 and 31), so 25 of the
32 patterns decode and only the 7 patterns {12,13,14,15,28,29,30} are
reserved. -/
theorem c6_function_code_count_counterexample :
    ((List.range 32).filter
        (fun n => (GpioConfig.function ⟨n <<< 8⟩).isSome)).length ≠ 24 := by
  decide

/-- Claim C6 amended: the Function enumeration admits exactly 25 valid
codes out of the 32 possible 5-bit patterns, the remaining 7 patterns
{12,13,14,15,28,29,30} being reserved. -/
theorem c6_function_valid_code_count :
    ((List.range 32).filter
        (fun n => (GpioConfig.function ⟨n <<< 8⟩).isSome)).length = 25
    ∧ (∀ n, n < 32 →
        (GpioConfig.function ⟨n <<< 8⟩ = none ↔
          n ∈ ([12, 13, 14, 15, 28, 29, 30] : List Nat))) := by
  decide

/-- Claim C9: decoding the Drive field and the Mode field is total — for
every raw word, `drive` and `mode` return a value (their fail-fast
branches are unreachable, all four 2-bit patterns being valid). -/
theorem c9_drive_mode_total :
    ∀ c : GpioConfig, c.drive.isSome = true ∧ c.mode.isSome = true := by
  intro c
  constructor
  · have h1 : c.raw &&& GpioConfig.DRIVE ≤ 12 :=
      le_trans Nat.and_le_right (by decide)
    have h2 : (c.raw &&& GpioConfig.DRIVE) >>> 2 < 4 := by
      rw [Nat.shiftRight_eq_div_pow, show (2 : Nat) ^ 2 = 4 from rfl]
      omega
    have h3 : (c.raw &&& GpioConfig.DRIVE) >>> 2 = 0
        ∨ (c.raw &&& GpioConfig.DRIVE) >>> 2 = 1
        ∨ (c.raw &&& GpioConfig.DRIVE) >>> 2 = 2
        ∨ (c.raw &&& GpioConfig.DRIVE) >>> 2 = 3 := by omega
    unfold GpioConfig.drive
    rcases h3 with h | h | h | h <;> rw [h] <;> rfl
  · have h1 : c.raw &&& GpioConfig.MODE ≤ 0xC0000000 :=
      le_trans Nat.and_le_right (by decide)
    have h2 : (c.raw &&& GpioConfig.MODE) >>> 30 < 4 := by
      rw [Nat.shiftRight_eq_div_pow, show (2 : Nat) ^ 30 = 1073741824 from rfl]
      omega
    have h3 : (c.raw &&& GpioConfig.MODE) >>> 30 = 0
        ∨ (c.raw &&& GpioConfig.MODE) >>> 30 = 1
        ∨ (c.raw &&& GpioConfig.MODE) >>> 30 = 2
        ∨ (c.raw &&& GpioConfig.MODE) >>> 30 = 3 := by omega
    unfold GpioConfig.mode
    rcases h3 with h | h | h | h <;> rw [h] <;> rfl

/-- Claim C2: field independence — applying any setter and then reading any
distinct field yields the same result as reading it on the original word:
generically through the mask-then-shift read `fieldGet`, bit-for-bit on the
32 bits outside the setter's own mask, and through every named getter. -/
theorem c2_field_independence :
    (∀ (op : SetOp) (c : GpioConfig) (f2 : GField), f2 ≠ op.targetField →
      fieldGet f2 (op.apply c) = fieldGet f2 c)
    ∧ (∀ (op : SetOp) (c : GpioConfig) (i : Nat), i < 32 →
        (fieldMask op.targetField).testBit i = false →
        (op.apply c).raw.testBit i = c.raw.testBit i)
    ∧ (∀ (op : SetOp) (c : GpioConfig), op.targetField ≠ .input_enable →
        (op.apply c).is_input_enabled = c.is_input_enabled)
    ∧ (∀ (op : SetOp) (c : GpioConfig), op.targetField ≠ .schmitt →
        (op.apply c).is_schmitt_enabled = c.is_schmitt_enabled)
    ∧ (∀ (op : SetOp) (c : GpioConfig), op.targetField ≠ .output_enable →
        (op.apply c).is_output_enabled = c.is_output_enabled)
    ∧ (∀ (op : SetOp) (c : GpioConfig), op.targetField ≠ .interrupt_mask →
        (op.apply c).is_interrupt_masked = c.is_interrupt_masked)
    ∧ (∀ (op : SetOp) (c : GpioConfig), op.targetField ≠ .has_interrupt →
        (op.apply c).has_interrupt = c.has_interrupt)
    ∧ (∀ (op : SetOp) (c : GpioConfig), op.targetField ≠ .output →
        (op.apply c).output = c.output)
    ∧ (∀ (op : SetOp) (c : GpioConfig), op.targetField ≠ .input →
        (op.apply c).input = c.input)
    ∧ (∀ (op : SetOp) (c : GpioConfig), op.targetField ≠ .drive →
        (op.apply c).drive = c.drive)
    ∧ (∀ (op : SetOp) (c : GpioConfig), op.targetField ≠ .pull →
        (op.apply c).pull = c.pull)
    ∧ (∀ (op : SetOp) (c : GpioConfig), op.targetField ≠ .function →
        (op.apply c).function = c.function)
    ∧ (∀ (op : SetOp) (c : GpioConfig), op.targetField ≠ .interrupt_mode →
        (op.apply c).interrupt_mode = c.interrupt_mode)
    ∧ (∀ (op : SetOp) (c : GpioConfig), op.targetField ≠ .mode →
        (op.apply c).mode = c.mode) := by
  refine ⟨?_, ?_, ?_, ?_, ?_, ?_, ?_, ?_, ?_, ?_, ?_, ?_, ?_, ?_⟩
  · intro op c f2 h
    unfold fieldGet
    rw [apply_preserves op c f2 h]
  · intro op c i hi hbit
    have h := congrArg (fun t => t.testBit i) (apply_outside_mask op c)
    simp only [Nat.testBit_land,
      not32_testBit (fieldMask op.targetField) i hi hbit, Bool.and_true] at h
    exact h
  · intro op c h
    exact is_input_enabled_congr _ _ (apply_preserves op c .input_enable (Ne.symm h))
  · intro op c h
    exact is_schmitt_enabled_congr _ _ (apply_preserves op c .schmitt (Ne.symm h))
  · intro op c h
    exact is_output_enabled_congr _ _ (apply_preserves op c .output_enable (Ne.symm h))
  · intro op c h
    exact is_interrupt_masked_congr _ _ (apply_preserves op c .interrupt_mask (Ne.symm h))
  · intro op c h
    exact has_interrupt_congr _ _ (apply_preserves op c .has_interrupt (Ne.symm h))
  · intro op c h
    exact output_congr _ _ (apply_preserves op c .output (Ne.symm h))
  · intro op c h
    exact input_congr _ _ (apply_preserves op c .input (Ne.symm h))
  · intro op c h
    exact drive_congr _ _ (apply_preserves op c .drive (Ne.symm h))
  · intro op c h
    exact pull_congr _ _ (apply_preserves op c .pull (Ne.symm h))
  · intro op c h
    exact function_congr _ _ (apply_preserves op c .function (Ne.symm h))
  · intro op c h
    exact interrupt_mode_congr _ _ (apply_preserves op c .interrupt_mode (Ne.symm h))
  · intro op c h
    exact mode_congr _ _ (apply_preserves op c .mode (Ne.symm h))

/-- Witness for C2: enabling input on the all-ones word leaves the pull
field read unchanged, and setting the drive field leaves bit 4 unchanged. -/
theorem c2_field_independence_witness :
    (GField.pull ≠ SetOp.enable_input.targetField
      ∧ fieldGet .pull (SetOp.enable_input.apply ⟨0xFFFFFFFF⟩)
          = fieldGet .pull ⟨0xFFFFFFFF⟩)
    ∧ ((4 : Nat) < 32
      ∧ (fieldMask (SetOp.set_drive Drive.Drive3).targetField).testBit 4 = false
      ∧ ((SetOp.set_drive Drive.Drive3).apply ⟨0x35⟩).raw.testBit 4
          = (GpioConfig.mk 0x35).raw.testBit 4)
    ∧ (SetOp.set.targetField ≠ GField.function
      ∧ (SetOp.set.apply ⟨0xB00⟩).function = GpioConfig.function ⟨0xB00⟩) :=
  ⟨⟨by decide, c2_field_independence.1 .enable_input ⟨0xFFFFFFFF⟩ .pull (by decide)⟩,
   ⟨by decide, by decide,
    c2_field_independence.2.1 (.set_drive .Drive3) ⟨0x35⟩ 4 (by decide) (by decide)⟩,
   ⟨by decide,
    (c2_field_independence.2.2.2.2.2.2.2.2.2.2.2.1) .set ⟨0xB00⟩ (by decide)⟩⟩

/-- Claim C7: strobe isolation — `set` turns on exactly bit 25: it reads
back as set, every other bit of the word is unchanged, and in particular
the clear strobe bit 26, the clear-interrupt strobe bit 20, the mode bits
and every enum field read the same as before. -/
theorem c7_strobe_isolation :
    ∀ c : GpioConfig,
      c.set.raw.testBit 25 = true
      ∧ (∀ i : Nat, i ≠ 25 → c.set.raw.testBit i = c.raw.testBit i)
      ∧ c.set.drive = c.drive
      ∧ c.set.pull = c.pull
      ∧ c.set.function = c.function
      ∧ c.set.interrupt_mode = c.interrupt_mode
      ∧ c.set.mode = c.mode := by
  intro c
  refine ⟨?_, ?_, ?_, ?_, ?_, ?_, ?_⟩
  · show (c.raw ||| GpioConfig.SET).testBit 25 = true
    rw [Nat.testBit_lor, show GpioConfig.SET = 2 ^ 25 from rfl,
      Nat.testBit_two_pow_self]
    simp
  · intro i hi
    show (c.raw ||| GpioConfig.SET).testBit i = c.raw.testBit i
    rw [Nat.testBit_lor, show GpioConfig.SET = 2 ^ 25 from rfl,
      Nat.testBit_two_pow_of_ne (fun he => hi he.symm)]
    simp
  · exact drive_congr _ _ (or_and_eq _ _ _ (by decide))
  · exact pull_congr _ _ (or_and_eq _ _ _ (by decide))
  · exact function_congr _ _ (or_and_eq _ _ _ (by decide))
  · exact interrupt_mode_congr _ _ (or_and_eq _ _ _ (by decide))
  · exact mode_congr _ _ (or_and_eq _ _ _ (by decide))

/-- Witness for C7: on the all-zero word, the `set` strobe leaves the
clear strobe bit 26 unchanged. -/
theorem c7_strobe_isolation_witness :
    (26 : Nat) ≠ 25
    ∧ (GpioConfig.set ⟨0⟩).raw.testBit 26 = (GpioConfig.mk 0).raw.testBit 26 :=
  ⟨by decide, (c7_strobe_isolation ⟨0⟩).2.1 26 (by decide)⟩

/-- Claim C8: every flag/status getter is a pure test of the documented
bit of the word: input enable bit 0, Schmitt bit 1, output enable bit 6,
has-pending-interrupt bit 21, interrupt mask bit 22, output level bit 24,
input level bit 28. -/
theorem c8_flag_getters_are_bit_tests :
    ∀ c : GpioConfig,
      c.is_input_enabled = c.raw.testBit 0
      ∧ c.is_schmitt_enabled = c.raw.testBit 1
      ∧ c.is_output_enabled = c.raw.testBit 6
      ∧ c.has_interrupt = c.raw.testBit 21
      ∧ c.is_interrupt_masked = c.raw.testBit 22
      ∧ c.output = c.raw.testBit 24
      ∧ c.input = c.raw.testBit 28 := by
  intro c
  exact ⟨and_shl_one_ne_zero c.raw 0, and_shl_one_ne_zero c.raw 1,
    and_shl_one_ne_zero c.raw 6, and_shl_one_ne_zero c.raw 21,
    and_shl_one_ne_zero c.raw 22, and_shl_one_ne_zero c.raw 24,
    and_shl_one_ne_zero c.raw 28⟩

/-- Claim C10: setter algebra — every enum setter is last-write-wins and
every flag or strobe operation is idempotent. -/
theorem c10_setter_algebra :
    (∀ (c : GpioConfig) (x y : Drive), (c.set_drive x).set_drive y = c.set_drive y)
    ∧ (∀ (c : GpioConfig) (x y : Pull), (c.set_pull x).set_pull y = c.set_pull y)
    ∧ (∀ (c : GpioConfig) (x y : Function),
        (c.set_function x).set_function y = c.set_function y)
    ∧ (∀ (c : GpioConfig) (x y : InterruptMode),
        (c.set_interrupt_mode x).set_interrupt_mode y = c.set_interrupt_mode y)
    ∧ (∀ (c : GpioConfig) (x y : Mode), (c.set_mode x).set_mode y = c.set_mode y)
    ∧ (∀ c : GpioConfig, c.enable_input.enable_input = c.enable_input)
    ∧ (∀ c : GpioConfig, c.disable_input.disable_input = c.disable_input)
    ∧ (∀ c : GpioConfig, c.enable_schmitt.enable_schmitt = c.enable_schmitt)
    ∧ (∀ c : GpioConfig, c.disable_schmitt.disable_schmitt = c.disable_schmitt)
    ∧ (∀ c : GpioConfig, c.enable_output.enable_output = c.enable_output)
    ∧ (∀ c : GpioConfig, c.disable_output.disable_output = c.disable_output)
    ∧ (∀ c : GpioConfig, c.mask_interrupt.mask_interrupt = c.mask_interrupt)
    ∧ (∀ c : GpioConfig, c.unmask_interrupt.unmask_interrupt = c.unmask_interrupt)
    ∧ (∀ c : GpioConfig, c.set.set = c.set)
    ∧ (∀ c : GpioConfig, c.clear.clear = c.clear)
    ∧ (∀ c : GpioConfig, c.clear_interrupt.clear_interrupt = c.clear_interrupt) := by
  refine ⟨?_, ?_, ?_, ?_, ?_, ?_, ?_, ?_, ?_, ?_, ?_, ?_, ?_, ?_, ?_, ?_⟩
  · intro c x y
    exact congrArg GpioConfig.mk (overwrite_eq _ _ _ _ (by decide)
      (shl_and_zero_of _ _ _ (drive_shl_restrict x) (by decide)))
  · intro c x y
    exact congrArg GpioConfig.mk (overwrite_eq _ _ _ _ (by decide)
      (shl_and_zero_of _ _ _ (pull_shl_restrict x) (by decide)))
  · intro c x y
    exact congrArg GpioConfig.mk (overwrite_eq _ _ _ _ (by decide)
      (shl_and_zero_of _ _ _ (function_shl_restrict x) (by decide)))
  · intro c x y
    exact congrArg GpioConfig.mk (overwrite_eq _ _ _ _ (by decide)
      (shl_and_zero_of _ _ _ (interrupt_mode_shl_restrict x) (by decide)))
  · intro c x y
    exact congrArg GpioConfig.mk (overwrite_eq _ _ _ _ (by decide)
      (shl_and_zero_of _ _ _ (mode_shl_restrict x) (by decide)))
  · intro c
    exact congrArg GpioConfig.mk (lor_lor_self _ _)
  · intro c
    exact congrArg GpioConfig.mk (land_land_self _ _)
  · intro c
    exact congrArg GpioConfig.mk (lor_lor_self _ _)
  · intro c
    exact congrArg GpioConfig.mk (land_land_self _ _)
  · intro c
    exact congrArg GpioConfig.mk (lor_lor_self _ _)
  · intro c
    exact congrArg GpioConfig.mk (land_land_self _ _)
  · intro c
    exact congrArg GpioConfig.mk (lor_lor_self _ _)
  · intro c
    exact congrArg GpioConfig.mk (land_land_self _ _)
  · intro c
    exact congrArg GpioConfig.mk (lor_lor_self _ _)
  · intro c
    exact congrArg GpioConfig.mk (lor_lor_self _ _)
  · intro c
    exact congrArg GpioConfig.mk (lor_lor_self _ _)

/-- Claim C4 counterexample: the output array does not begin at byte
offset 0x8C4 + 46×4 + 0x148 + 8, and it does not follow the input array
immediately — the source declares a third reserved gap `[u8; 0x18]`
between `gpio_input` and `gpio_output`. -/
theorem c4_layout_counterexample :
    regOffset .gpio_output ≠ 0x8c4 + 46 * 4 + 0x148 + 8
    ∧ regOffset .gpio_output ≠ regOffset .gpio_input + byteSize .gpio_input := by
  decide

/-- Claim C4 amended: the register map holds, in order, a reserved gap
[0x000..0x8C4), 46 four-byte config slots, a 0x148-byte reserved gap, the
2-word read-only input array, a third 0x18-byte reserved gap, then the
2-word read-write output array at 0x8C4 + 46×4 + 0x148 + 8 + 0x18,
followed with no further padding by the 2-word write-only set array and
the 2-word write-only clear array. -/
theorem c4_register_layout :
    regOffset .reserved0 = 0
    ∧ regOffset .gpio_config = 0x8c4
    ∧ byteSize .gpio_config = 46 * 4
    ∧ regOffset .reserved1 = 0x8c4 + 46 * 4
    ∧ regOffset .gpio_input = 0x8c4 + 46 * 4 + 0x148
    ∧ byteSize .gpio_input = 2 * 4
    ∧ regOffset .reserved2 = 0x8c4 + 46 * 4 + 0x148 + 8
    ∧ byteSize .reserved2 = 0x18
    ∧ regOffset .gpio_output = 0x8c4 + 46 * 4 + 0x148 + 8 + 0x18
    ∧ regOffset .gpio_set = regOffset .gpio_output + byteSize .gpio_output
    ∧ regOffset .gpio_clear = regOffset .gpio_set + byteSize .gpio_set
    ∧ regAccess .gpio_input = .readOnly
    ∧ regAccess .gpio_output = .readWrite
    ∧ regAccess .gpio_set = .writeOnly
    ∧ regAccess .gpio_clear = .writeOnly
    ∧ fieldOrder.Nodup
    ∧ fieldOrder.length = 8 := by
  decide

end Glb
